import Mathlib

set_option maxRecDepth 16384

/-!
Verification development for the SDG agent repository
(`src/backend/kernel_tools/sdg_tools.py` and
`src/backend/kernel_agents/sdg_agent.py`).

The Python code is shallowly embedded: each tool method becomes a Lean
function on `String`/`Int`, the reflective registry
(`get_all_kernel_functions`, `generate_tools_json_doc`) is modelled over an
explicit list of method records carrying the same data Python reflection
reads (name, `inspect.isfunction` result, the `__kernel_function__`
attribute, `str(__annotations__)`, the decorator description, the
docstring, and the declared signature).  `inspect.getmembers` sorts members
alphabetically by name, which the embedding reproduces.
-/

/-- Python `str.lower()` restricted to the ASCII range (all inputs relevant
here are ASCII). -/
def pyLower (s : String) : String := String.mk (s.data.map Char.toLower)

/-- Does `hay` start with `needle` (on character lists)? -/
def startsWithList : List Char → List Char → Bool
  | [], _ => true
  | _ :: _, [] => false
  | a :: as, b :: bs => a == b && startsWithList as bs

/-- Does `needle` occur as a contiguous run inside `hay`? -/
def hasSubList (needle : List Char) : List Char → Bool
  | [] => startsWithList needle []
  | c :: cs => startsWithList needle (c :: cs) || hasSubList needle cs

/-- Python's substring test `needle in hay`. -/
def strContainsSub (hay needle : String) : Bool := hasSubList needle.data hay.data

/-- Python `s.startswith(pre)`. -/
def pyStartsWith (s pre : String) : Bool := startsWithList pre.data s.data

/-- Python slicing `s[:50]` on a `str` (code points, as in Python). -/
def pySlice50 (s : String) : String := String.mk (s.data.take 50)

/-- Python `s.replace("_", " ")` (the pattern is a single character here). -/
def underscoresToSpaces (s : String) : String :=
  String.mk (s.data.map (fun c => if c = '_' then ' ' else c))

/-- Character stream of Python `str.title()`: a cased character that follows
a cased character is lowercased, otherwise uppercased.  `Char.isAlpha`
models "cased" for the ASCII identifiers that occur here. -/
def pyTitleChars : Bool → List Char → List Char
  | _, [] => []
  | prev, c :: cs =>
    (if c.isAlpha then (if prev then c.toLower else c.toUpper) else c) ::
      pyTitleChars c.isAlpha cs

/-- Python `str.title()`. -/
def pyTitle (s : String) : String := String.mk (pyTitleChars false s.data)

/-- The `.replace('"', "'")` applied to the serialized argument map in
`generate_tools_json_doc`. -/
def singleQuoted (s : String) : String :=
  String.mk (s.data.map (fun c => if c = '"' then '\x27' else c))

/-- JSON string escaping as `json.dumps` performs it for the characters that
can occur in this repository's data (quote, backslash, and the common
control characters; no other control characters appear in the sources). -/
def escapeJsonChar (c : Char) : String :=
  if c = '"' then "\\\""
  else if c = '\\' then "\\\\"
  else if c = '\n' then "\\n"
  else if c = '\t' then "\\t"
  else if c = '\r' then "\\r"
  else String.singleton c

/-- JSON string escaping applied to a whole string. -/
def escapeJson (s : String) : String := String.join (s.data.map escapeJsonChar)

/-- JSON values produced by the manifest generator (only strings, arrays and
objects occur). -/
inductive JsonVal where
  | str : String → JsonVal
  | arr : List JsonVal → JsonVal
  | obj : List (String × JsonVal) → JsonVal

mutual

/-- Serialization of a JSON value in `json.dumps` default format
(separators `", "` and `": "`). -/
def renderJson : JsonVal → String
  | JsonVal.str s => "\"" ++ escapeJson s ++ "\""
  | JsonVal.arr xs => "[" ++ renderArr xs ++ "]"
  | JsonVal.obj kvs => "\x7b" ++ renderObj kvs ++ "\x7d"

/-- Serialization of the elements of a JSON array. -/
def renderArr : List JsonVal → String
  | [] => ""
  | [x] => renderJson x
  | x :: y :: xs => renderJson x ++ ", " ++ renderArr (y :: xs)

/-- Serialization of the members of a JSON object. -/
def renderObj : List (String × JsonVal) → String
  | [] => ""
  | [(k, v)] => "\"" ++ escapeJson k ++ "\": " ++ renderJson v
  | (k, v) :: y :: xs =>
      "\"" ++ escapeJson k ++ "\": " ++ renderJson v ++ ", " ++ renderObj (y :: xs)

end

/-- Field lookup in a JSON object (`none` on non-objects or missing keys). -/
def jsonField : JsonVal → String → Option JsonVal
  | JsonVal.obj kvs, k => (kvs.find? (fun kv => kv.1 == k)).map (fun kv => kv.2)
  | _, _ => none

/-- A Python type object as the manifest generator inspects it: its
`__name__` when the attribute exists, and `str(type_obj).lower()`. -/
structure PyTypeObj where
  name : Option String
  reprLower : String
deriving DecidableEq

/-- The builtin `int` type object. -/
def pyIntTy : PyTypeObj := { name := some "int", reprLower := "<class \x27int\x27>" }

/-- The builtin `str` type object. -/
def pyStrTy : PyTypeObj := { name := some "str", reprLower := "<class \x27str\x27>" }

/-- One declared parameter of a method: its name and its entry in
`typing.get_type_hints` (`none` when the parameter is unannotated). -/
structure PyParam where
  name : String
  typeHint : Option PyTypeObj
deriving DecidableEq

/-- Reflection-visible data of one attribute of the tool class:
`isFunction` is the result of the `inspect.isfunction` predicate used by
`inspect.getmembers` (static methods are plain functions, the two
`@classmethod` registry methods are bound methods and are not),
`hasKernelAttr` is `hasattr(method, "__kernel_function__")`,
`annotationsStr` is `str(method.__annotations__)`, `kernelDescription` the
decorator's `description`, `docstring` the `__doc__` text, and `params` the
signature's parameters in declaration order. -/
structure PyMethod where
  name : String
  isFunction : Bool
  hasKernelAttr : Bool
  annotationsStr : String
  kernelDescription : Option String
  docstring : Option String
  params : List PyParam
deriving DecidableEq

/-- Parameter type inference of `generate_tools_json_doc`: default
`"string"` when the parameter has no type hint; `type_obj.__name__.lower()`
when the type object has a `__name__`; otherwise the
int/float/boolean/string precedence over `str(type_obj).lower()`. -/
def inferType : Option PyTypeObj → String
  | none => "string"
  | some t =>
    match t.name with
    | some n => pyLower n
    | none =>
      if strContainsSub t.reprLower "int" then "int"
      else if strContainsSub t.reprLower "float" then "float"
      else if strContainsSub t.reprLower "bool" then "boolean"
      else "string"

/-- The inferred manifest type tag of a named parameter of a method. -/
def typeTagOf (m : PyMethod) (pname : String) : Option String :=
  (m.params.find? (fun p => p.name == pname)).map (fun p => inferType p.typeHint)

/-- Description selection in `generate_tools_json_doc`: start from the
stripped docstring when present, then let a truthy (non-empty)
`__kernel_function__.description` override it. -/
def methodDescription (m : PyMethod) : String :=
  let base := match m.docstring with
    | some doc => doc.trim
    | none => ""
  match m.kernelDescription with
  | some kd => if kd == "" then base else kd
  | none => base

/-- The `args_dict` entry built for one parameter: description is the raw
parameter name, title is `name.replace("_", " ").title()`, type is the
inferred tag. -/
def paramEntry (p : PyParam) : String × JsonVal :=
  (p.name, JsonVal.obj
    [("description", JsonVal.str p.name),
     ("title", JsonVal.str (pyTitle (underscoresToSpaces p.name))),
     ("type", JsonVal.str (inferType p.typeHint))])

/-- The full `args_dict` of a method: every signature parameter except the
implicit receivers `cls` and `self`, in declaration order. -/
def argsEntries (params : List PyParam) : List (String × JsonVal) :=
  (params.filter (fun p => !(p.name == "cls" || p.name == "self"))).map paramEntry

/-- Lexicographic comparison of character lists by code point, the order
Python uses to compare `str` values. -/
def listLtChars : List Char → List Char → Bool
  | [], [] => false
  | [], _ :: _ => true
  | _ :: _, [] => false
  | a :: as, b :: bs =>
    if a.toNat < b.toNat then true
    else if b.toNat < a.toNat then false
    else listLtChars as bs

/-- Python's `<` on strings. -/
def pyStrLt (a b : String) : Bool := listLtChars a.data b.data

/-- Insertion of a method into a name-sorted list (names are pairwise
distinct in the class, so the sorted order is unique). -/
def insertByName (m : PyMethod) : List PyMethod → List PyMethod
  | [] => [m]
  | x :: xs => if pyStrLt m.name x.name then m :: x :: xs else x :: insertByName m xs

/-- Sorting by name, modelling the alphabetical order in which
`inspect.getmembers` returns members. -/
def sortByName : List PyMethod → List PyMethod
  | [] => []
  | x :: xs => insertByName x (sortByName xs)

/-- The result of `inspect.getmembers(cls, predicate=inspect.isfunction)`:
the members satisfying the predicate, sorted alphabetically by name. -/
def getmembersFunctions (members : List PyMethod) : List PyMethod :=
  sortByName (members.filter (fun m => m.isFunction))

/-- Embedding of `SDGTools.get_all_kernel_functions`: iterate the sorted
function members, skip leading-underscore names and the method itself, keep
those with the `__kernel_function__` attribute or with `"kernel_function"`
occurring in `str(__annotations__)`; the resulting dict maps each name to
the callable, in iteration order. -/
def get_all_kernel_functions (members : List PyMethod) : List (String × PyMethod) :=
  ((getmembersFunctions members).filter (fun m =>
      !(pyStartsWith m.name "_" || m.name == "get_all_kernel_functions") &&
      (m.hasKernelAttr || strContainsSub m.annotationsStr "kernel_function"))).map
    (fun m => (m.name, m))

/-- The `tool_entry` dictionary built for one method in
`generate_tools_json_doc`. -/
def toolEntry (agentName : String) (m : PyMethod) : JsonVal :=
  JsonVal.obj
    [("agent", JsonVal.str agentName),
     ("function", JsonVal.str m.name),
     ("description", JsonVal.str (methodDescription m)),
     ("arguments", JsonVal.str (singleQuoted (renderJson (JsonVal.obj (argsEntries m.params)))))]

/-- The `tools_list` accumulated by `generate_tools_json_doc`: sorted
function members, skipping leading-underscore names and the method itself,
keeping those with the `__kernel_function__` attribute. -/
def toolsList (agentName : String) (members : List PyMethod) : List JsonVal :=
  ((getmembersFunctions members).filter (fun m =>
      !(pyStartsWith m.name "_" || m.name == "generate_tools_json_doc") &&
      m.hasKernelAttr)).map (toolEntry agentName)

/-- Embedding of `SDGTools.generate_tools_json_doc` (the agent identity tag
`AgentType.SDG.value` comes from a module outside this repository and is
passed as a parameter; `json.dumps` indentation is not modelled, only the
JSON structure). -/
def generate_tools_json_doc (agentName : String) (members : List PyMethod) : String :=
  renderJson (JsonVal.arr (toolsList agentName members))

namespace SDGTools

/-- The class attribute `SDGTools.formatting_instructions`. -/
def formatting_instructions : String :=
  "Instructions: returning the output of this function call verbatim to the user in markdown. Then write AGENT SUMMARY: and then include a summary of what you did."

/-- Embedding of the tool method `analyze_sdg4_alignment` (an `async def`
returning `str`; the returned string is pure, so it is modelled as a plain
function). -/
def analyze_sdg4_alignment (project_description : String) : String :=
  "##### SDG 4 Alignment Analysis\n" ++ "**Project:** " ++ pySlice50 project_description ++
    "...\n\n" ++ "Analysis of project alignment with SDG 4 (Quality Education) completed.\n" ++
    formatting_instructions

/-- Embedding of the tool method `analyze_sdg_alignment`. -/
def analyze_sdg_alignment (sdg_number : Int) (project_description : String) : String :=
  "##### SDG " ++ toString sdg_number ++ " Alignment Analysis\n" ++ "**Project:** " ++
    pySlice50 project_description ++ "...\n\n" ++ "Analysis of project alignment with SDG " ++
    toString sdg_number ++ " completed.\n" ++ formatting_instructions

/-- Embedding of the tool method `analyze_teacher_training`. -/
def analyze_teacher_training (project_description : String) : String :=
  "##### Teacher Training Analysis for SDG 4\n" ++ "**Project:** " ++
    pySlice50 project_description ++ "...\n\n" ++
    "Analysis of teacher training components and alignment with SDG 4 completed.\n" ++
    formatting_instructions

/-- Embedding of the tool method `analyze_digital_learning_tools`. -/
def analyze_digital_learning_tools (project_description : String) : String :=
  "##### Digital Learning Tools Analysis for SDG 4\n" ++ "**Project:** " ++
    pySlice50 project_description ++ "...\n\n" ++
    "Analysis of digital learning tools and alignment with SDG 4 completed.\n" ++
    formatting_instructions

/-- Embedding of the tool method `analyze_gender_equality_in_education`. -/
def analyze_gender_equality_in_education (project_description : String) : String :=
  "##### Gender Equality in Education Analysis (SDG 4.5)\n" ++ "**Project:** " ++
    pySlice50 project_description ++ "...\n\n" ++
    "Analysis of gender equality aspects in education and alignment with SDG 4.5 completed.\n" ++
    formatting_instructions

/-- Embedding of the tool method `analyze_education_accessibility`. -/
def analyze_education_accessibility (project_description : String) : String :=
  "##### Education Accessibility Analysis for Persons with Disabilities (SDG 4.5)\n" ++
    "**Project:** " ++ pySlice50 project_description ++ "...\n\n" ++
    "Analysis of accessibility for persons with disabilities in education and alignment with SDG 4.5 completed.\n" ++
    formatting_instructions

/-- Embedding of the tool method `suggest_sdg_indicators`. -/
def suggest_sdg_indicators (sdg_number : Int) : String :=
  "##### SDG " ++ toString sdg_number ++ " Indicators\n\n" ++
    "Suggested indicators for tracking SDG " ++ toString sdg_number ++
    " impact have been provided.\n" ++ formatting_instructions

/-- Embedding of the tool method `identify_un_agencies`. -/
def identify_un_agencies (sdg_number : Int) : String :=
  "##### UN Agencies for SDG " ++ toString sdg_number ++ "\n\n" ++
    "Identified UN agencies relevant to SDG " ++ toString sdg_number ++ ".\n" ++
    formatting_instructions

/-- Embedding of the tool method `generate_sdg_recommendations`. -/
def generate_sdg_recommendations (sdg_number : Int) (project_description : String) : String :=
  "##### SDG " ++ toString sdg_number ++ " Recommendations\n" ++ "**Project:** " ++
    pySlice50 project_description ++ "...\n\n" ++ "Recommendations for improving alignment with SDG " ++
    toString sdg_number ++ " have been generated.\n" ++ formatting_instructions

/-- Embedding of the tool method `analyze_sdg_interlinkages`. -/
def analyze_sdg_interlinkages (primary_sdg : Int) (project_description : String) : String :=
  "##### SDG Interlinkages Analysis\n" ++ "**Primary SDG:** " ++ toString primary_sdg ++ "\n" ++
    "**Project:** " ++ pySlice50 project_description ++ "...\n\n" ++
    "Analysis of interlinkages between SDG " ++ toString primary_sdg ++
    " and other SDGs completed.\n" ++ formatting_instructions

/-- Embedding of the tool method `provide_sdg_implementation_guidance`. -/
def provide_sdg_implementation_guidance (sdg_number : Int) (target_number : String) : String :=
  "##### Implementation Guidance for SDG " ++ toString sdg_number ++ "." ++ target_number ++
    "\n\n" ++ "Implementation guidance for target " ++ toString sdg_number ++ "." ++
    target_number ++ " has been provided.\n" ++ formatting_instructions

end SDGTools

namespace SDGTools

/-- Reflection data of `analyze_sdg4_alignment`. -/
def analyze_sdg4_alignment_info : PyMethod :=
  { name := "analyze_sdg4_alignment"
    isFunction := true
    hasKernelAttr := true
    annotationsStr := "\x7b\x27project_description\x27: <class \x27str\x27>, \x27return\x27: <class \x27str\x27>\x7d"
    kernelDescription := some "Analyze a project\x27s alignment with SDG 4 (Quality Education). This should be used for ANY query related to education, training, learning, teaching, or SDG 4."
    docstring := some "Analyze how a project aligns with SDG 4 (Quality Education) and its targets. Use this for ANY education-related query."
    params := [{ name := "project_description", typeHint := some pyStrTy }] }

/-- Reflection data of `analyze_sdg_alignment`. -/
def analyze_sdg_alignment_info : PyMethod :=
  { name := "analyze_sdg_alignment"
    isFunction := true
    hasKernelAttr := true
    annotationsStr := "\x7b\x27sdg_number\x27: <class \x27int\x27>, \x27project_description\x27: <class \x27str\x27>, \x27return\x27: <class \x27str\x27>\x7d"
    kernelDescription := some "Analyze a project\x27s alignment with any SDG by specifying the SDG number. Use for all SDG alignment analysis except SDG 4 (which has its own function)."
    docstring := some "Analyze how a project aligns with a specified SDG and its targets."
    params := [{ name := "sdg_number", typeHint := some pyIntTy },
               { name := "project_description", typeHint := some pyStrTy }] }

/-- Reflection data of `analyze_teacher_training`. -/
def analyze_teacher_training_info : PyMethod :=
  { name := "analyze_teacher_training"
    isFunction := true
    hasKernelAttr := true
    annotationsStr := "\x7b\x27project_description\x27: <class \x27str\x27>, \x27return\x27: <class \x27str\x27>\x7d"
    kernelDescription := some "Evaluate teacher training components in a project for SDG 4 alignment"
    docstring := some "Evaluate how a project\x27s teacher training components align with SDG 4."
    params := [{ name := "project_description", typeHint := some pyStrTy }] }

/-- Reflection data of `analyze_digital_learning_tools`. -/
def analyze_digital_learning_tools_info : PyMethod :=
  { name := "analyze_digital_learning_tools"
    isFunction := true
    hasKernelAttr := true
    annotationsStr := "\x7b\x27project_description\x27: <class \x27str\x27>, \x27return\x27: <class \x27str\x27>\x7d"
    kernelDescription := some "Evaluate digital learning tools in a project for SDG 4 alignment"
    docstring := some "Evaluate how a project\x27s digital learning tools align with SDG 4."
    params := [{ name := "project_description", typeHint := some pyStrTy }] }

/-- Reflection data of `analyze_gender_equality_in_education`. -/
def analyze_gender_equality_in_education_info : PyMethod :=
  { name := "analyze_gender_equality_in_education"
    isFunction := true
    hasKernelAttr := true
    annotationsStr := "\x7b\x27project_description\x27: <class \x27str\x27>, \x27return\x27: <class \x27str\x27>\x7d"
    kernelDescription := some "Evaluate gender equality aspects in education projects (SDG 4.5)"
    docstring := some "Evaluate how a project addresses gender equality in education (SDG 4.5)."
    params := [{ name := "project_description", typeHint := some pyStrTy }] }

/-- Reflection data of `analyze_education_accessibility`. -/
def analyze_education_accessibility_info : PyMethod :=
  { name := "analyze_education_accessibility"
    isFunction := true
    hasKernelAttr := true
    annotationsStr := "\x7b\x27project_description\x27: <class \x27str\x27>, \x27return\x27: <class \x27str\x27>\x7d"
    kernelDescription := some "Evaluate accessibility for persons with disabilities in education projects (SDG 4.5)"
    docstring := some "Evaluate how a project addresses accessibility for persons with disabilities in education (SDG 4.5)."
    params := [{ name := "project_description", typeHint := some pyStrTy }] }

/-- Reflection data of `suggest_sdg_indicators`. -/
def suggest_sdg_indicators_info : PyMethod :=
  { name := "suggest_sdg_indicators"
    isFunction := true
    hasKernelAttr := true
    annotationsStr := "\x7b\x27sdg_number\x27: <class \x27int\x27>, \x27return\x27: <class \x27str\x27>\x7d"
    kernelDescription := some "Suggest SDG indicators for tracking project impact"
    docstring := some "Suggest SDG indicators for tracking project impact."
    params := [{ name := "sdg_number", typeHint := some pyIntTy }] }

/-- Reflection data of `identify_un_agencies`. -/
def identify_un_agencies_info : PyMethod :=
  { name := "identify_un_agencies"
    isFunction := true
    hasKernelAttr := true
    annotationsStr := "\x7b\x27sdg_number\x27: <class \x27int\x27>, \x27return\x27: <class \x27str\x27>\x7d"
    kernelDescription := some "Identify UN agencies relevant to a specific SDG"
    docstring := some "Identify UN agencies relevant to a specific SDG."
    params := [{ name := "sdg_number", typeHint := some pyIntTy }] }

/-- Reflection data of `generate_sdg_recommendations`. -/
def generate_sdg_recommendations_info : PyMethod :=
  { name := "generate_sdg_recommendations"
    isFunction := true
    hasKernelAttr := true
    annotationsStr := "\x7b\x27sdg_number\x27: <class \x27int\x27>, \x27project_description\x27: <class \x27str\x27>, \x27return\x27: <class \x27str\x27>\x7d"
    kernelDescription := some "Generate SDG-specific recommendations for a project"
    docstring := some "Generate SDG-specific recommendations for a project."
    params := [{ name := "sdg_number", typeHint := some pyIntTy },
               { name := "project_description", typeHint := some pyStrTy }] }

/-- Reflection data of `analyze_sdg_interlinkages`. -/
def analyze_sdg_interlinkages_info : PyMethod :=
  { name := "analyze_sdg_interlinkages"
    isFunction := true
    hasKernelAttr := true
    annotationsStr := "\x7b\x27primary_sdg\x27: <class \x27int\x27>, \x27project_description\x27: <class \x27str\x27>, \x27return\x27: <class \x27str\x27>\x7d"
    kernelDescription := some "Analyze interlinkages between SDGs for a project"
    docstring := some "Analyze interlinkages between SDGs for a project."
    params := [{ name := "primary_sdg", typeHint := some pyIntTy },
               { name := "project_description", typeHint := some pyStrTy }] }

/-- Reflection data of `provide_sdg_implementation_guidance`. -/
def provide_sdg_implementation_guidance_info : PyMethod :=
  { name := "provide_sdg_implementation_guidance"
    isFunction := true
    hasKernelAttr := true
    annotationsStr := "\x7b\x27sdg_number\x27: <class \x27int\x27>, \x27target_number\x27: <class \x27str\x27>, \x27return\x27: <class \x27str\x27>\x7d"
    kernelDescription := some "Provide implementation guidance for SDG targets"
    docstring := some "Provide implementation guidance for SDG targets."
    params := [{ name := "sdg_number", typeHint := some pyIntTy },
               { name := "target_number", typeHint := some pyStrTy }] }

/-- Reflection data of the `@classmethod get_all_kernel_functions` itself:
accessed through the class it is a bound method, so `inspect.isfunction`
rejects it (it is additionally excluded by name in the source loop). -/
def get_all_kernel_functions_info : PyMethod :=
  { name := "get_all_kernel_functions"
    isFunction := false
    hasKernelAttr := false
    annotationsStr := "\x7b\x27return\x27: dict[str, typing.Callable]\x7d"
    kernelDescription := none
    docstring := some "\n        Returns a dictionary of all methods in this class that have the @kernel_function annotation.\n        This function itself is not annotated with @kernel_function.\n\n        Returns:\n            Dict[str, Callable]: Dictionary with function names as keys and function objects as values\n        "
    params := [] }

/-- Reflection data of the `@classmethod generate_tools_json_doc` itself:
a bound method through the class, rejected by `inspect.isfunction` (and
additionally excluded by name in its own loop). -/
def generate_tools_json_doc_info : PyMethod :=
  { name := "generate_tools_json_doc"
    isFunction := false
    hasKernelAttr := false
    annotationsStr := "\x7b\x27return\x27: <class \x27str\x27>\x7d"
    kernelDescription := none
    docstring := some "\n        Generate a JSON document containing information about all methods in the class.\n\n        Returns:\n            str: JSON string containing the methods\x27 information\n        "
    params := [] }

/-- All reflection-visible methods of the `SDGTools` class, in declaration
order (the class body order of `sdg_tools.py`). -/
def members : List PyMethod :=
  [analyze_sdg4_alignment_info, analyze_sdg_alignment_info, analyze_teacher_training_info,
   analyze_digital_learning_tools_info, analyze_gender_equality_in_education_info,
   analyze_education_accessibility_info, suggest_sdg_indicators_info, identify_un_agencies_info,
   generate_sdg_recommendations_info, analyze_sdg_interlinkages_info,
   provide_sdg_implementation_guidance_info, get_all_kernel_functions_info,
   generate_tools_json_doc_info]

end SDGTools

/-- Python truthiness of an `Optional[int]`: `None` and `0` are falsy. -/
def pyTruthyOptInt : Option Int → Bool
  | none => false
  | some n => decide (n ≠ 0)

/-- Python `d[k]` on the single-key string dictionaries the agent methods
return (every key looked up below is present). -/
def pyDictGet (d : List (String × String)) (k : String) : String :=
  ((d.find? (fun kv => kv.1 == k)).map (fun kv => kv.2)).getD ""

namespace SDGAgent

/-- The SDG-specific prompt template of `SDGAgent.analyze_sdg_alignment`. -/
def sdgSpecificPrompt (sdg_number : Int) (project_description : String) : String :=
  "Please analyze the following project for alignment with SDG " ++ toString sdg_number ++
    ":\n\n" ++ project_description ++ "\n\nFor SDG " ++ toString sdg_number ++
    ":\n1. Identify which specific targets the project addresses\n2. Rate the alignment (strong, moderate, weak)\n3. Suggest metrics that could be used to measure progress\n4. Recommend improvements to strengthen SDG alignment\n\nProvide a concise summary highlighting how the project contributes to SDG " ++
    toString sdg_number ++ "."

/-- The all-SDGs prompt template of `SDGAgent.analyze_sdg_alignment`. -/
def sdgGeneralPrompt (project_description : String) : String :=
  "Please analyze the following project for alignment with the UN Sustainable Development Goals:\n\n" ++
    project_description ++
    "\n\nFor each relevant SDG:\n1. Identify which specific targets the project addresses\n2. Rate the alignment (strong, moderate, weak)\n3. Suggest metrics that could be used to measure progress\n4. Recommend improvements to strengthen SDG alignment\n\nProvide a concise summary at the end highlighting the primary SDGs addressed."

/-- The prompt template of `SDGAgent.suggest_sdg_indicators`. -/
def indicatorsPrompt (project_description : String) : String :=
  "Based on the following project description, suggest appropriate SDG indicators that could be used to measure progress and impact:\n\n" ++
    project_description ++
    "\n\nFor each suggested indicator:\n1. Identify the specific SDG and target it relates to\n2. Explain why this indicator is appropriate for this project\n3. Suggest practical data collection methods\n4. Note any potential challenges in measurement"

/-- The prompt template of `SDGAgent.identify_un_agencies`. -/
def agenciesPrompt (initiative_description : String) : String :=
  "Based on the following initiative, identify the most relevant UN agencies and entities that could provide support, expertise, or partnership:\n\n" ++
    initiative_description ++
    "\n\nFor each identified agency:\n1. Explain their relevance to this initiative\n2. Note their specific expertise or resources that would be valuable\n3. Suggest potential mechanisms for engagement (e.g., technical assistance, funding, partnership)"

/-- Embedding of `SDGAgent.analyze_sdg_alignment`.  The completion backend
(`completion_with_retry`, an external collaborator) is the parameter
`completion`.  The source guards on `if sdg_number:`, i.e. Python
truthiness of the optional argument, and wraps the response as
`{"analysis": response}`. -/
def analyze_sdg_alignment (completion : String → String) (project_description : String)
    (sdg_number : Option Int) : List (String × String) :=
  let prompt :=
    if pyTruthyOptInt sdg_number then sdgSpecificPrompt (sdg_number.getD 0) project_description
    else sdgGeneralPrompt project_description
  [("analysis", completion prompt)]

/-- Embedding of `SDGAgent.suggest_sdg_indicators`. -/
def suggest_sdg_indicators (completion : String → String)
    (project_description : String) : List (String × String) :=
  [("indicators", completion (indicatorsPrompt project_description))]

/-- Embedding of `SDGAgent.identify_un_agencies`. -/
def identify_un_agencies (completion : String → String)
    (initiative_description : String) : List (String × String) :=
  [("agencies", completion (agenciesPrompt initiative_description))]

/-- Embedding of `SDGAgent.process_message`: the keyword router.  Each
branch tests case-insensitive substring membership on the message, first
match wins, and the fallback passes the message directly to the completion
client. -/
def process_message (completion : String → String) (message : String) : String :=
  if strContainsSub (pyLower message) "analyze" || strContainsSub (pyLower message) "alignment" ||
      strContainsSub (pyLower message) "sdg" then
    pyDictGet (analyze_sdg_alignment completion message none) "analysis"
  else if strContainsSub (pyLower message) "indicator" || strContainsSub (pyLower message) "measure" ||
      strContainsSub (pyLower message) "metric" then
    pyDictGet (suggest_sdg_indicators completion message) "indicators"
  else if strContainsSub (pyLower message) "agency" || strContainsSub (pyLower message) "agencies" ||
      strContainsSub (pyLower message) "partner" then
    pyDictGet (identify_un_agencies completion message) "agencies"
  else
    completion message

end SDGAgent

/-- Argument values an orchestrator can pass to a tool. -/
inductive PyValue where
  | int : Int → PyValue
  | str : String → PyValue
deriving DecidableEq

/-- Error kinds of tool invocation, per spec section 4.1. -/
inductive ToolError where
  | notFound
  | invalidArgument
deriving DecidableEq

/-- Modelled from the spec: the repository's source contains no
invoke-tool-by-name implementation (invocation is performed by the external
orchestrator/planner through the registry returned by
`get_all_kernel_functions`).  Spec section 4.1, operation "invoke tool by
name": look the name up in the registry; an unknown name fails with a
NotFound-kind error; a known name executes the callable (`impl` stands for
the execution of the found callable on the argument bundle). -/
def invoke_tool_by_name (members : List PyMethod) (impl : PyMethod → List PyValue → String)
    (name : String) (args : List PyValue) : Except ToolError String :=
  match (get_all_kernel_functions members).find? (fun kv => kv.1 == name) with
  | some kv => Except.ok (impl kv.2 args)
  | none => Except.error ToolError.notFound

/-- Associativity of string concatenation. -/
theorem str_append_assoc (a b c : String) : a ++ b ++ c = a ++ (b ++ c) := by
  cases a with
  | mk la =>
    cases b with
    | mk lb =>
      cases c with
      | mk lc =>
        show String.mk (la ++ lb ++ lc) = String.mk (la ++ (lb ++ lc))
        rw [List.append_assoc]

/-- Splitting the literal that follows every project preview. -/
theorem dotsSplit : ("...\n\n" : String) = "..." ++ "\n\n" := rfl

/-- The string `s` contains `seg` as a contiguous segment. -/
def containsSeg (s seg : String) : Prop := ∃ pre post : String, s = pre ++ seg ++ post

/-- The string `s` ends with the string `suf`. -/
def endsWithStr (s suf : String) : Prop := ∃ pre : String, s = pre ++ suf

/-- Any concatenation ends with its right factor. -/
theorem endsWith_append (x f : String) : endsWithStr (x ++ f) f := ⟨x, rfl⟩

/-- A 50-character slice of a string of at least 50 characters has exactly
50 characters. -/
theorem pySlice50_length (d : String) (h : 50 ≤ d.length) : (pySlice50 d).length = 50 := by
  show (d.data.take 50).length = 50
  rw [List.length_take]
  exact Nat.min_eq_left h

/-- Slicing a string of at most 50 characters returns it unchanged. -/
theorem pySlice50_eq_self (d : String) (h : d.length ≤ 50) : pySlice50 d = d := by
  cases d with
  | mk l =>
    show String.mk (l.take 50) = String.mk l
    rw [List.take_of_length_le h]

/-- C1 counterexample: the parameter `project_description` of
`analyze_sdg4_alignment` is declared with the plain string type `str`, and
the manifest generator tags it `"str"` (the lowercased `__name__`), not
`"string"` as the claim states. -/
theorem c1_counterexample :
    typeTagOf SDGTools.analyze_sdg4_alignment_info "project_description" = some "str" ∧
    some "str" ≠ (some "string" : Option String) := by decide

/-- C1 (amended): a parameter whose declared type object has a `__name__`
is tagged with the lowercased `__name__` — `"int"` for `int` parameters and
`"str"` (not `"string"`) for `str` parameters, which covers every parameter
of the tool class — while a parameter with no type hint is tagged
`"string"`; the int/float/boolean/string precedence applies only to
declared types lacking a `__name__`. -/
theorem c1_amended_type_tags (m : PyMethod) (hm : m ∈ SDGTools.members) (p : PyParam)
    (hp : p ∈ m.params) :
    inferType none = "string" ∧
    ((p.typeHint = some pyIntTy ∧ inferType p.typeHint = "int") ∨
     (p.typeHint = some pyStrTy ∧ inferType p.typeHint = "str")) := by
  refine ⟨rfl, ?_⟩
  have H : ∀ m2 ∈ SDGTools.members, ∀ p2 ∈ m2.params,
      (p2.typeHint = some pyIntTy ∧ inferType p2.typeHint = "int") ∨
      (p2.typeHint = some pyStrTy ∧ inferType p2.typeHint = "str") := by decide
  exact H m hm p hp

/-- C1 witness: the amended statement evaluated at the `sdg_number`
parameter of `analyze_sdg_alignment`. -/
theorem c1_amended_type_tags_witness :
    inferType none = "string" ∧
    ((PyParam.typeHint { name := "sdg_number", typeHint := some pyIntTy } = some pyIntTy ∧
        inferType (PyParam.typeHint { name := "sdg_number", typeHint := some pyIntTy }) = "int") ∨
     (PyParam.typeHint { name := "sdg_number", typeHint := some pyIntTy } = some pyStrTy ∧
        inferType (PyParam.typeHint { name := "sdg_number", typeHint := some pyIntTy }) = "str")) :=
  c1_amended_type_tags SDGTools.analyze_sdg_alignment_info (by decide)
    { name := "sdg_number", typeHint := some pyIntTy } (by decide)

/-- The names declared with the `@kernel_function` annotation, in class
declaration order. -/
def declaredKernelToolNames : List String :=
  (SDGTools.members.filter (fun m => m.hasKernelAttr)).map PyMethod.name

/-- C2: the key set of `get_all_kernel_functions` is exactly the set of
`@kernel_function`-annotated methods (the 11 declared tools), with no
duplicates, without `get_all_kernel_functions` itself and without any
leading-underscore name. -/
theorem c2_registry_keys :
    List.Perm ((get_all_kernel_functions SDGTools.members).map Prod.fst)
      declaredKernelToolNames ∧
    ((get_all_kernel_functions SDGTools.members).map Prod.fst).Nodup ∧
    ((get_all_kernel_functions SDGTools.members).map Prod.fst).length = 11 ∧
    "get_all_kernel_functions" ∉ (get_all_kernel_functions SDGTools.members).map Prod.fst ∧
    ∀ k ∈ (get_all_kernel_functions SDGTools.members).map Prod.fst,
      pyStartsWith k "_" = false := by decide

/-- C3 counterexample: the first registry entry is not
`analyze_sdg4_alignment` (the first declared tool) and the last is not
`provide_sdg_implementation_guidance` (the last declared tool), so the
order is not class declaration order. -/
theorem c3_counterexample :
    ((get_all_kernel_functions SDGTools.members).map Prod.fst).head? ≠
      some "analyze_sdg4_alignment" ∧
    ((get_all_kernel_functions SDGTools.members).map Prod.fst).getLast? ≠
      some "provide_sdg_implementation_guidance" := by decide

/-- The 11 tool names in alphabetical order. -/
def alphaToolNames : List String :=
  ["analyze_digital_learning_tools", "analyze_education_accessibility",
   "analyze_gender_equality_in_education", "analyze_sdg4_alignment", "analyze_sdg_alignment",
   "analyze_sdg_interlinkages", "analyze_teacher_training", "generate_sdg_recommendations",
   "identify_un_agencies", "provide_sdg_implementation_guidance", "suggest_sdg_indicators"]

/-- C3 (amended): both the registry of `get_all_kernel_functions` and the
manifest of `generate_tools_json_doc` list the tools in alphabetical order
of method name (`inspect.getmembers` sorts members), starting with
`analyze_digital_learning_tools` and ending with `suggest_sdg_indicators`. -/
theorem c3_alphabetical_order (agentName : String) :
    (get_all_kernel_functions SDGTools.members).map Prod.fst = alphaToolNames ∧
    (toolsList agentName SDGTools.members).map (fun j => jsonField j "function") =
      alphaToolNames.map (fun nm => some (JsonVal.str nm)) ∧
    alphaToolNames.head? = some "analyze_digital_learning_tools" ∧
    alphaToolNames.getLast? = some "suggest_sdg_indicators" :=
  ⟨rfl, rfl, rfl, rfl⟩

/-- C4: `generate_tools_json_doc` is total on the class (the embedding is a
total function), its output is the rendering of a JSON array, and that
array has as many entries as `get_all_kernel_functions` returns. -/
theorem c4_manifest_json (agentName : String) :
    ∃ entries : List JsonVal,
      generate_tools_json_doc agentName SDGTools.members = renderJson (JsonVal.arr entries) ∧
      entries.length = (get_all_kernel_functions SDGTools.members).length := by
  refine ⟨toolsList agentName SDGTools.members, rfl, ?_⟩
  simp only [toolsList]
  rw [List.length_map]
  rfl

/-- The preview segment and the trailing instruction block of
`analyze_sdg4_alignment`. -/
theorem sdg4_preview (d : String) :
    containsSeg (SDGTools.analyze_sdg4_alignment d) (pySlice50 d ++ "...") ∧
    endsWithStr (SDGTools.analyze_sdg4_alignment d) SDGTools.formatting_instructions := by
  constructor
  · refine ⟨"##### SDG 4 Alignment Analysis\n" ++ "**Project:** ",
      "\n\n" ++ "Analysis of project alignment with SDG 4 (Quality Education) completed.\n" ++
        SDGTools.formatting_instructions, ?_⟩
    simp only [SDGTools.analyze_sdg4_alignment, dotsSplit, str_append_assoc]
  · exact endsWith_append _ _

/-- The preview segment and the trailing instruction block of
`analyze_sdg_alignment`. -/
theorem sdgn_preview (n : Int) (d : String) :
    containsSeg (SDGTools.analyze_sdg_alignment n d) (pySlice50 d ++ "...") ∧
    endsWithStr (SDGTools.analyze_sdg_alignment n d) SDGTools.formatting_instructions := by
  constructor
  · refine ⟨"##### SDG " ++ toString n ++ " Alignment Analysis\n" ++ "**Project:** ",
      "\n\n" ++ "Analysis of project alignment with SDG " ++ toString n ++ " completed.\n" ++
        SDGTools.formatting_instructions, ?_⟩
    simp only [SDGTools.analyze_sdg_alignment, dotsSplit, str_append_assoc]
  · exact endsWith_append _ _

/-- The preview segment and the trailing instruction block of
`analyze_teacher_training`. -/
theorem teacher_preview (d : String) :
    containsSeg (SDGTools.analyze_teacher_training d) (pySlice50 d ++ "...") ∧
    endsWithStr (SDGTools.analyze_teacher_training d) SDGTools.formatting_instructions := by
  constructor
  · refine ⟨"##### Teacher Training Analysis for SDG 4\n" ++ "**Project:** ",
      "\n\n" ++ "Analysis of teacher training components and alignment with SDG 4 completed.\n" ++
        SDGTools.formatting_instructions, ?_⟩
    simp only [SDGTools.analyze_teacher_training, dotsSplit, str_append_assoc]
  · exact endsWith_append _ _

/-- The preview segment and the trailing instruction block of
`analyze_digital_learning_tools`. -/
theorem digital_preview (d : String) :
    containsSeg (SDGTools.analyze_digital_learning_tools d) (pySlice50 d ++ "...") ∧
    endsWithStr (SDGTools.analyze_digital_learning_tools d) SDGTools.formatting_instructions := by
  constructor
  · refine ⟨"##### Digital Learning Tools Analysis for SDG 4\n" ++ "**Project:** ",
      "\n\n" ++ "Analysis of digital learning tools and alignment with SDG 4 completed.\n" ++
        SDGTools.formatting_instructions, ?_⟩
    simp only [SDGTools.analyze_digital_learning_tools, dotsSplit, str_append_assoc]
  · exact endsWith_append _ _

/-- The preview segment and the trailing instruction block of
`analyze_gender_equality_in_education`. -/
theorem gender_preview (d : String) :
    containsSeg (SDGTools.analyze_gender_equality_in_education d) (pySlice50 d ++ "...") ∧
    endsWithStr (SDGTools.analyze_gender_equality_in_education d)
      SDGTools.formatting_instructions := by
  constructor
  · refine ⟨"##### Gender Equality in Education Analysis (SDG 4.5)\n" ++ "**Project:** ",
      "\n\n" ++ "Analysis of gender equality aspects in education and alignment with SDG 4.5 completed.\n" ++
        SDGTools.formatting_instructions, ?_⟩
    simp only [SDGTools.analyze_gender_equality_in_education, dotsSplit, str_append_assoc]
  · exact endsWith_append _ _

/-- The preview segment and the trailing instruction block of
`analyze_education_accessibility`. -/
theorem accessibility_preview (d : String) :
    containsSeg (SDGTools.analyze_education_accessibility d) (pySlice50 d ++ "...") ∧
    endsWithStr (SDGTools.analyze_education_accessibility d)
      SDGTools.formatting_instructions := by
  constructor
  · refine ⟨"##### Education Accessibility Analysis for Persons with Disabilities (SDG 4.5)\n" ++
      "**Project:** ",
      "\n\n" ++ "Analysis of accessibility for persons with disabilities in education and alignment with SDG 4.5 completed.\n" ++
        SDGTools.formatting_instructions, ?_⟩
    simp only [SDGTools.analyze_education_accessibility, dotsSplit, str_append_assoc]
  · exact endsWith_append _ _

/-- The preview segment and the trailing instruction block of
`generate_sdg_recommendations`. -/
theorem recommendations_preview (n : Int) (d : String) :
    containsSeg (SDGTools.generate_sdg_recommendations n d) (pySlice50 d ++ "...") ∧
    endsWithStr (SDGTools.generate_sdg_recommendations n d)
      SDGTools.formatting_instructions := by
  constructor
  · refine ⟨"##### SDG " ++ toString n ++ " Recommendations\n" ++ "**Project:** ",
      "\n\n" ++ "Recommendations for improving alignment with SDG " ++ toString n ++
        " have been generated.\n" ++ SDGTools.formatting_instructions, ?_⟩
    simp only [SDGTools.generate_sdg_recommendations, dotsSplit, str_append_assoc]
  · exact endsWith_append _ _

/-- The preview segment and the trailing instruction block of
`analyze_sdg_interlinkages`. -/
theorem interlinkages_preview (n : Int) (d : String) :
    containsSeg (SDGTools.analyze_sdg_interlinkages n d) (pySlice50 d ++ "...") ∧
    endsWithStr (SDGTools.analyze_sdg_interlinkages n d)
      SDGTools.formatting_instructions := by
  constructor
  · refine ⟨"##### SDG Interlinkages Analysis\n" ++ "**Primary SDG:** " ++ toString n ++ "\n" ++
      "**Project:** ",
      "\n\n" ++ "Analysis of interlinkages between SDG " ++ toString n ++
        " and other SDGs completed.\n" ++ SDGTools.formatting_instructions, ?_⟩
    simp only [SDGTools.analyze_sdg_interlinkages, dotsSplit, str_append_assoc]
  · exact endsWith_append _ _

/-- Truncated-preview property of every tool response that embeds a
project description: the response contains the 50-character slice followed
by the ellipsis marker and ends with the instruction block. -/
def previewProps (d : String) (n : Int) : Prop :=
  (containsSeg (SDGTools.analyze_sdg4_alignment d) (pySlice50 d ++ "...") ∧
    endsWithStr (SDGTools.analyze_sdg4_alignment d) SDGTools.formatting_instructions) ∧
  (containsSeg (SDGTools.analyze_sdg_alignment n d) (pySlice50 d ++ "...") ∧
    endsWithStr (SDGTools.analyze_sdg_alignment n d) SDGTools.formatting_instructions) ∧
  (containsSeg (SDGTools.analyze_teacher_training d) (pySlice50 d ++ "...") ∧
    endsWithStr (SDGTools.analyze_teacher_training d) SDGTools.formatting_instructions) ∧
  (containsSeg (SDGTools.analyze_digital_learning_tools d) (pySlice50 d ++ "...") ∧
    endsWithStr (SDGTools.analyze_digital_learning_tools d) SDGTools.formatting_instructions) ∧
  (containsSeg (SDGTools.analyze_gender_equality_in_education d) (pySlice50 d ++ "...") ∧
    endsWithStr (SDGTools.analyze_gender_equality_in_education d)
      SDGTools.formatting_instructions) ∧
  (containsSeg (SDGTools.analyze_education_accessibility d) (pySlice50 d ++ "...") ∧
    endsWithStr (SDGTools.analyze_education_accessibility d)
      SDGTools.formatting_instructions) ∧
  (containsSeg (SDGTools.generate_sdg_recommendations n d) (pySlice50 d ++ "...") ∧
    endsWithStr (SDGTools.generate_sdg_recommendations n d)
      SDGTools.formatting_instructions) ∧
  (containsSeg (SDGTools.analyze_sdg_interlinkages n d) (pySlice50 d ++ "...") ∧
    endsWithStr (SDGTools.analyze_sdg_interlinkages n d) SDGTools.formatting_instructions)

/-- C5: for a 200-character project description, every tool response that
embeds a preview shows exactly the first 50 characters of the description
followed by the ellipsis marker, and ends with the fixed instruction
block. -/
theorem c5_preview_truncation (d : String) (h : d.length = 200) (n : Int) :
    (pySlice50 d).length = 50 ∧ previewProps d n := by
  refine ⟨pySlice50_length d (by rw [h]; decide), ?_⟩
  exact ⟨sdg4_preview d, sdgn_preview n d, teacher_preview d, digital_preview d,
    gender_preview d, accessibility_preview d, recommendations_preview n d,
    interlinkages_preview n d⟩

/-- C5 witness: the preview property evaluated at a concrete 200-character
description. -/
theorem c5_preview_truncation_witness :
    (String.mk (List.replicate 200 'a')).length = 200 ∧
    ((pySlice50 (String.mk (List.replicate 200 'a'))).length = 50 ∧
      previewProps (String.mk (List.replicate 200 'a')) 3) :=
  ⟨by show (List.replicate 200 'a').length = 200; simp,
   c5_preview_truncation (String.mk (List.replicate 200 'a'))
     (by show (List.replicate 200 'a').length = 200; simp) 3⟩

/-- Untruncated-preview property: for every tool response that embeds a
project description, the full description followed by the ellipsis marker
occurs in the response. -/
def shortPreviewProps (d : String) (n : Int) : Prop :=
  containsSeg (SDGTools.analyze_sdg4_alignment d) (d ++ "...") ∧
  containsSeg (SDGTools.analyze_sdg_alignment n d) (d ++ "...") ∧
  containsSeg (SDGTools.analyze_teacher_training d) (d ++ "...") ∧
  containsSeg (SDGTools.analyze_digital_learning_tools d) (d ++ "...") ∧
  containsSeg (SDGTools.analyze_gender_equality_in_education d) (d ++ "...") ∧
  containsSeg (SDGTools.analyze_education_accessibility d) (d ++ "...") ∧
  containsSeg (SDGTools.generate_sdg_recommendations n d) (d ++ "...") ∧
  containsSeg (SDGTools.analyze_sdg_interlinkages n d) (d ++ "...")

/-- C9: the ellipsis marker is appended unconditionally: a description of
at most 50 characters is embedded in full (the slice is the whole string)
and is still followed by `"..."` in every preview-embedding tool
response. -/
theorem c9_ellipsis_unconditional (d : String) (h : d.length ≤ 50) (n : Int) :
    pySlice50 d = d ∧ shortPreviewProps d n := by
  have hs := pySlice50_eq_self d h
  refine ⟨hs, ?_, ?_, ?_, ?_, ?_, ?_, ?_, ?_⟩
  · have := (sdg4_preview d).1; rwa [hs] at this
  · have := (sdgn_preview n d).1; rwa [hs] at this
  · have := (teacher_preview d).1; rwa [hs] at this
  · have := (digital_preview d).1; rwa [hs] at this
  · have := (gender_preview d).1; rwa [hs] at this
  · have := (accessibility_preview d).1; rwa [hs] at this
  · have := (recommendations_preview n d).1; rwa [hs] at this
  · have := (interlinkages_preview n d).1; rwa [hs] at this

/-- C9 witness: the unconditional ellipsis evaluated at the 3-character
description `"Edu"`. -/
theorem c9_ellipsis_unconditional_witness :
    ("Edu" : String).length ≤ 50 ∧ (pySlice50 "Edu" = "Edu" ∧ shortPreviewProps "Edu" 7) :=
  ⟨by decide, c9_ellipsis_unconditional "Edu" (by decide) 7⟩

/-- C6: `process_message` routes by case-insensitive substring matching in
a fixed first-match-wins order: `"please analyze SDG alignment"` goes to
the alignment analysis handler (whose result is the completion of the
general alignment prompt), a message containing `"indicator"` but no
alignment-category keyword goes to the indicator suggestion handler, a
message containing `"agency"` but no alignment- or indicator-category
keyword goes to the agency identification handler, and `"hello"` falls
through to the direct completion call. -/
theorem c6_keyword_routing (c : String → String) (m1 m2 : String)
    (h1 : strContainsSub (pyLower m1) "indicator" = true)
    (h2 : strContainsSub (pyLower m1) "analyze" = false)
    (h3 : strContainsSub (pyLower m1) "alignment" = false)
    (h4 : strContainsSub (pyLower m1) "sdg" = false)
    (h5 : strContainsSub (pyLower m2) "agency" = true)
    (h6 : strContainsSub (pyLower m2) "analyze" = false)
    (h7 : strContainsSub (pyLower m2) "alignment" = false)
    (h8 : strContainsSub (pyLower m2) "sdg" = false)
    (h9 : strContainsSub (pyLower m2) "indicator" = false)
    (h10 : strContainsSub (pyLower m2) "measure" = false)
    (h11 : strContainsSub (pyLower m2) "metric" = false) :
    SDGAgent.process_message c "please analyze SDG alignment" =
        c (SDGAgent.sdgGeneralPrompt "please analyze SDG alignment") ∧
    SDGAgent.process_message c m1 = c (SDGAgent.indicatorsPrompt m1) ∧
    SDGAgent.process_message c m2 = c (SDGAgent.agenciesPrompt m2) ∧
    SDGAgent.process_message c "hello" = c "hello" := by
  refine ⟨rfl, ?_, ?_, rfl⟩
  · simp [SDGAgent.process_message, h1, h2, h3, h4, SDGAgent.suggest_sdg_indicators, pyDictGet]
  · simp [SDGAgent.process_message, h5, h6, h7, h8, h9, h10, h11,
      SDGAgent.identify_un_agencies, pyDictGet]

/-- C6 witness: the routing evaluated at the identity completion client and
the concrete messages `"indicator"` and `"agency"`. -/
theorem c6_keyword_routing_witness :
    SDGAgent.process_message (fun s => s) "please analyze SDG alignment" =
        SDGAgent.sdgGeneralPrompt "please analyze SDG alignment" ∧
    SDGAgent.process_message (fun s => s) "indicator" = SDGAgent.indicatorsPrompt "indicator" ∧
    SDGAgent.process_message (fun s => s) "agency" = SDGAgent.agenciesPrompt "agency" ∧
    SDGAgent.process_message (fun s => s) "hello" = "hello" :=
  c6_keyword_routing (fun s => s) "indicator" "agency" (by decide) (by decide) (by decide)
    (by decide) (by decide) (by decide) (by decide) (by decide) (by decide) (by decide)
    (by decide)

/-- C7: every entry of the tool manifest is an object with exactly the
fields `agent`, `function`, `description`, `arguments` in that order, where
`arguments` is a string (not a JSON object) holding the JSON encoding of
the per-parameter map `{param: {description, title, type}}` with every
double quote replaced by a single quote. -/
theorem c7_entry_shape (agentName : String) (e : JsonVal)
    (he : e ∈ toolsList agentName SDGTools.members) :
    ∃ fname desc args, e = JsonVal.obj
        [("agent", JsonVal.str agentName),
         ("function", JsonVal.str fname),
         ("description", JsonVal.str desc),
         ("arguments", JsonVal.str (singleQuoted (renderJson (JsonVal.obj args))))] ∧
      ∀ kv ∈ args, ∃ t ty, kv.2 = JsonVal.obj
          [("description", JsonVal.str kv.1),
           ("title", JsonVal.str t),
           ("type", JsonVal.str ty)] := by
  simp only [toolsList] at he
  rcases List.mem_map.1 he with ⟨m, _, rfl⟩
  refine ⟨m.name, methodDescription m, argsEntries m.params, rfl, ?_⟩
  intro kv hkv
  simp only [argsEntries] at hkv
  rcases List.mem_map.1 hkv with ⟨p, _, rfl⟩
  exact ⟨pyTitle (underscoresToSpaces p.name), inferType p.typeHint, rfl⟩

/-- C7 witness: the entry shape evaluated at the first manifest entry for
the agent tag `"SDG"`. -/
theorem c7_entry_shape_witness :
    ∃ fname desc args, toolEntry "SDG" SDGTools.analyze_digital_learning_tools_info =
      JsonVal.obj
        [("agent", JsonVal.str "SDG"),
         ("function", JsonVal.str fname),
         ("description", JsonVal.str desc),
         ("arguments", JsonVal.str (singleQuoted (renderJson (JsonVal.obj args))))] ∧
      ∀ kv ∈ args, ∃ t ty, kv.2 = JsonVal.obj
          [("description", JsonVal.str kv.1),
           ("title", JsonVal.str t),
           ("type", JsonVal.str ty)] := by
  refine c7_entry_shape "SDG" _ ?_
  have h : toolsList "SDG" SDGTools.members =
      toolEntry "SDG" SDGTools.analyze_digital_learning_tools_info ::
        (toolsList "SDG" SDGTools.members).tail := rfl
  rw [h]
  exact List.mem_cons_self _ _

/-- C8: invoking a tool by a name absent from the registry fails with the
NotFound-kind error and never yields a success result.  (The invocation
operation itself is modelled from the spec, as the orchestrator-side
invoke-by-name machinery is not part of this repository.) -/
theorem c8_unknown_tool_notfound (impl : PyMethod → List PyValue → String) (name : String)
    (args : List PyValue)
    (h : ∀ kv ∈ get_all_kernel_functions SDGTools.members, kv.1 ≠ name) :
    invoke_tool_by_name SDGTools.members impl name args = Except.error ToolError.notFound ∧
    ∀ s : String, invoke_tool_by_name SDGTools.members impl name args ≠ Except.ok s := by
  have hf : (get_all_kernel_functions SDGTools.members).find? (fun kv => kv.1 == name) =
      none := by
    rw [List.find?_eq_none]
    intro kv hkv
    simp [h kv hkv]
  constructor
  · simp [invoke_tool_by_name, hf]
  · intro s
    simp [invoke_tool_by_name, hf]

/-- C8 witness: invoking the unknown name `"nonexistent_tool"` returns the
NotFound error. -/
theorem c8_unknown_tool_notfound_witness :
    invoke_tool_by_name SDGTools.members (fun _ _ => "") "nonexistent_tool" [] =
      Except.error ToolError.notFound :=
  (c8_unknown_tool_notfound (fun _ _ => "") "nonexistent_tool" [] (by decide)).1

/-- C10: `SDGAgent.analyze_sdg_alignment` tests `sdg_number` for Python
truthiness, not presence: `sdg_number = 0` builds the same general
all-SDGs prompt as an omitted `sdg_number`, any nonzero `sdg_number` builds
the SDG-specific prompt, and in every case the result is the completion
response wrapped as a single-key `{"analysis": ...}` dictionary. -/
theorem c10_sdg_number_truthiness (c : String → String) (pd : String) :
    SDGAgent.analyze_sdg_alignment c pd (some 0) = SDGAgent.analyze_sdg_alignment c pd none ∧
    SDGAgent.analyze_sdg_alignment c pd (some 0) =
      [("analysis", c (SDGAgent.sdgGeneralPrompt pd))] ∧
    (∀ n : Int, n ≠ 0 → SDGAgent.analyze_sdg_alignment c pd (some n) =
      [("analysis", c (SDGAgent.sdgSpecificPrompt n pd))]) ∧
    (∀ sdg : Option Int, ∃ r : String,
      SDGAgent.analyze_sdg_alignment c pd sdg = [("analysis", r)]) := by
  refine ⟨rfl, rfl, ?_, ?_⟩
  · intro n hn
    simp [SDGAgent.analyze_sdg_alignment, pyTruthyOptInt, hn]
  · intro sdg
    exact ⟨_, rfl⟩

/-- C10 witness: the truthiness behaviour evaluated at the identity
completion client, description `"p"` and `sdg_number = 5`. -/
theorem c10_sdg_number_truthiness_witness :
    SDGAgent.analyze_sdg_alignment (fun s => s) "p" (some 5) =
      [("analysis", SDGAgent.sdgSpecificPrompt 5 "p")] :=
  (c10_sdg_number_truthiness (fun s => s) "p").2.2.1 5 (by decide)
